import Mathlib

/-!
Verification of the registry-login subsystem of image-reflector-controller.

The subsystem classifies a container image by its registry host (AWS ECR,
Google GCR / Artifact Registry, Azure ACR, or Generic) and, when auto-login
is enabled, exchanges ambient cloud credentials for registry basic-auth
credentials.

Embedding conventions:
- Go strings are Lean `String`; `strings.HasSuffix` is embedded as a suffix
  test on the character list.
- HTTP interactions are embedded as explicit response values passed to the
  functions that would perform the network call: a response carries the
  status code, the status text and the result of decoding its body.
- Go `(T, error)` returns are `Except RegistryError T`; a `nil` authenticator
  together with a `nil` error (the Generic case of the manager) is
  `Except.ok none` of an `Option` result.
-/

/-- splitFirst c l finds the first occurrence of character c in l and returns
the parts before and after it; none when c does not occur.  This embeds the
extraction of the registry-host substring of an image string (the part before
the first slash). -/
def splitFirst (c : Char) : List Char → Option (List Char × List Char)
  | [] => none
  | x :: xs =>
    if x = c then some ([], xs)
    else (splitFirst c xs).map (fun p => (x :: p.1, p.2))

/-- splitAll c l splits l on every occurrence of c, keeping empty segments,
like Go strings.Split. -/
def splitAll (c : Char) : List Char → List (List Char)
  | [] => [[]]
  | x :: xs =>
    if x = c then [] :: splitAll c xs
    else
      match splitAll c xs with
      | [] => [[x]]
      | y :: ys => (x :: y) :: ys

/-- hasSuffix s suffix embeds Go strings.HasSuffix: suffix is a suffix of s. -/
def hasSuffix (s suffix : String) : Bool :=
  suffix.data.isSuffixOf s.data

namespace registry

/-- AuthConfig is the basic-auth credential pair returned by every exchanger
(authn.AuthConfig restricted to the fields this subsystem sets). -/
structure AuthConfig where
  Username : String
  Password : String
deriving DecidableEq, Repr

/-- Provider is the closed enumeration of registry providers
(registry.Provider with ProviderAWS, ProviderGCR, ProviderAzure,
ProviderGeneric). -/
inductive Provider where
  | AWS
  | GCR
  | Azure
  | Generic
deriving DecidableEq, Repr

/-- Reference is the parsed image reference consumed from the external
name.ParseReference library: an opaque value exposing the registry host and
the repository path. -/
structure Reference where
  registryHost : String
  repository : String

/-- RegistryError models the error values surfaced by the exchangers and the
manager, one constructor per failure category of the error taxonomy:
unconfiguredProvider wraps registry.ErrUnconfiguredProvider (Go
fmt.Errorf with the %w verb applied to the sentinel), carrying the wrapping
message; unexpectedStatus carries the upstream HTTP status text; the others
carry their message. -/
inductive RegistryError where
  | unconfiguredProvider (wrapMsg : String)
  | unexpectedStatus (status : String)
  | invalidResponse (msg : String)
  | invalidToken (msg : String)
  | invalidImage (msg : String)
  | transport (msg : String)
deriving DecidableEq, Repr

/-- wrapsUnconfiguredProvider e embeds Go
errors.Is(e, registry.ErrUnconfiguredProvider): whether the error wraps the
ErrUnconfiguredProvider sentinel. -/
def RegistryError.wrapsUnconfiguredProvider : RegistryError → Bool
  | .unconfiguredProvider _ => true
  | _ => false

/-- message renders an error the way the Go source formats it; the
unexpectedStatus rendering is fmt.Errorf("unexpected status from metadata
service: %s", response.Status) from gcp/auth.go. -/
def RegistryError.message : RegistryError → String
  | .unconfiguredProvider m => m ++ ": no client configured for provider"
  | .unexpectedStatus s => "unexpected status from metadata service: " ++ s
  | .invalidResponse m => m
  | .invalidToken m => m
  | .invalidImage m => m
  | .transport m => m

end registry

/-- Json is the value space of decoded JSON bodies; numbers are integers,
which covers every body these exchangers consume. -/
inductive Json where
  | null
  | bool (b : Bool)
  | num (n : Int)
  | str (s : String)
  | arr (elems : List Json)
  | obj (fields : List (String × Json))

/-- jsonLookup k fields finds the value of field k in a decoded JSON
object. -/
def jsonLookup (k : String) : List (String × Json) → Option Json
  | [] => none
  | (k', v) :: rest => if k' = k then some v else jsonLookup k rest

/-- HttpResponse is the embedding of the HTTP response consumed by the GCP
exchanger: the status code, the status text (Go response.Status, e.g.
"500 Internal Server Error") and the JSON decoding of the body (none when
the body is not decodable as JSON, modelling a json.Decoder failure). -/
structure HttpResponse where
  statusCode : Nat
  status : String
  body : Option Json

namespace gcp

open registry

/-- gceToken is the decoded metadata-service token response
(struct gceToken of gcp/auth.go with json tags access_token, expires_in,
token_type). -/
structure gceToken where
  AccessToken : String
  ExpiresIn : Int
  TokenType : String
deriving DecidableEq, Repr

/-- decodeStrField embeds Go encoding/json unmarshalling of a string struct
field: a missing field leaves the zero value "", a present string field is
taken, a present field of any other type is a decode error. -/
def decodeStrField (fields : List (String × Json)) (k : String) :
    Except String String :=
  match jsonLookup k fields with
  | none => .ok ""
  | some (.str s) => .ok s
  | some _ => .error ("json: cannot unmarshal field " ++ k)

/-- decodeIntField embeds Go encoding/json unmarshalling of an int struct
field: missing gives 0, an integer is taken, any other type errors. -/
def decodeIntField (fields : List (String × Json)) (k : String) :
    Except String Int :=
  match jsonLookup k fields with
  | none => .ok 0
  | some (.num n) => .ok n
  | some _ => .error ("json: cannot unmarshal field " ++ k)

/-- decode embeds json.Decoder.Decode(&accessToken) for the gceToken struct:
the body must be a JSON object; each field unmarshals independently. -/
def gceToken.decode (j : Json) : Except String gceToken :=
  match j with
  | .obj fields => do
    let at_ ← decodeStrField fields "access_token"
    let ei ← decodeIntField fields "expires_in"
    let tt ← decodeStrField fields "token_type"
    .ok ⟨at_, ei, tt⟩
  | _ => .error "json: cannot unmarshal body into gceToken"

/-- GCP_TOKEN_URL is the default GCP metadata endpoint used for
authentication. -/
def GCP_TOKEN_URL : String :=
  "http://metadata.google.internal/computeMetadata/v1/instance/service-accounts/default/token"

/-- ValidHost returns if a given host is a valid GCR host (gcp/auth.go
line 28): host == "gcr.io" || strings.HasSuffix(host, ".gcr.io") ||
strings.HasSuffix(host, "-docker.pkg.dev"). -/
def ValidHost (host : String) : Bool :=
  host == "gcr.io" || hasSuffix host ".gcr.io" || hasSuffix host "-docker.pkg.dev"

/-- Client is a GCP GCR client which can log into the registry and return
authorization information; its only configuration is the token URL. -/
structure Client where
  tokenURL : String

/-- NewClient creates a new GCR client with default configurations. -/
def NewClient : Client := ⟨GCP_TOKEN_URL⟩

/-- WithTokenURL sets the token URL used by the GCR client. -/
def Client.WithTokenURL (_c : Client) (url : String) : Client := ⟨url⟩

/-- getLoginAuth embeds Client.getLoginAuth of gcp/auth.go: the HTTP GET of
the token URL is embedded as the response argument; a non-200 status fails
with the status text; a JSON-decode failure of the body fails as an invalid
response; otherwise the access token becomes the password under the fixed
username "oauth2accesstoken". -/
def Client.getLoginAuth (_c : Client) (resp : HttpResponse) :
    Except RegistryError AuthConfig :=
  if resp.statusCode ≠ 200 then
    .error (.unexpectedStatus resp.status)
  else
    match resp.body with
    | none => .error (.invalidResponse "json: body is not valid JSON")
    | some j =>
      match gceToken.decode j with
      | .error e => .error (.invalidResponse e)
      | .ok tok => .ok ⟨"oauth2accesstoken", tok.AccessToken⟩

/-- Login embeds Client.Login of gcp/auth.go: with autoLogin it performs the
metadata exchange (the response argument stands for the call the exchange
would make) and wraps the result; without autoLogin it fails wrapping
ErrUnconfiguredProvider ("GCR authentication failed: %w").  Logging calls
are side-effect-free and dropped. -/
def Client.Login (c : Client) (autoLogin : Bool) (_image : String)
    (_ref : Reference) (resp : HttpResponse) : Except RegistryError AuthConfig :=
  if autoLogin then
    c.getLoginAuth resp
  else
    .error (.unconfiguredProvider "GCR authentication failed")

end gcp

namespace aws

open registry

/-- base64Val gives the 6-bit value of a standard base64 alphabet character;
none for a character outside the alphabet. -/
def base64Val (c : Char) : Option Nat :=
  if 'A' ≤ c ∧ c ≤ 'Z' then some (c.toNat - 65)
  else if 'a' ≤ c ∧ c ≤ 'z' then some (c.toNat - 97 + 26)
  else if '0' ≤ c ∧ c ≤ '9' then some (c.toNat - 48 + 52)
  else if c = '+' then some 62
  else if c = '/' then some 63
  else none

/-- base64DecodeChunks decodes standard base64 four characters at a time into
bytes, accepting "=" padding only at the end; none on malformed input, like
Go base64.StdEncoding.DecodeString. -/
def base64DecodeChunks : List Char → Option (List Nat)
  | [] => some []
  | c1 :: c2 :: c3 :: c4 :: rest =>
    match base64Val c1, base64Val c2 with
    | some v1, some v2 =>
      if c3 = '=' then
        if c4 = '=' ∧ rest = [] then some [v1 * 4 + v2 / 16] else none
      else
        match base64Val c3 with
        | some v3 =>
          if c4 = '=' then
            if rest = [] then some [v1 * 4 + v2 / 16, v2 % 16 * 16 + v3 / 4]
            else none
          else
            match base64Val c4, base64DecodeChunks rest with
            | some v4, some tail =>
              some ((v1 * 4 + v2 / 16) :: (v2 % 16 * 16 + v3 / 4) ::
                    (v3 % 4 * 64 + v4) :: tail)
            | _, _ => none
        | none => none
    | _, _ => none
  | _ => none

/-- base64Decode decodes a standard base64 string to the string of its bytes
(the decoded payloads here are ASCII, so bytes and characters coincide);
none on malformed base64. -/
def base64Decode (s : String) : Option String :=
  (base64DecodeChunks s.data).map (fun bytes => ⟨bytes.map Char.ofNat⟩)

/-- Modelled from the spec: aws.ParseImage is absent from src (only its tests
are).  Per the spec, it extracts (accountID, region) by strict pattern
matching on the registry host substring of the image string — the part
before the first slash must be dot-separated segments
{12-digit-account-id}.dkr.ecr.{region}.amazonaws.com, optionally followed
by a .cn or other partition suffix (further dot-separated segments) — and
returns ok=false, never an error, for any non-matching or incomplete host,
including a registry-only image with no repository path. -/
def ParseImage (image : String) : String × String × Bool :=
  match splitFirst '/' image.data with
  | none => ("", "", false)
  | some (host, path) =>
    if path = [] then ("", "", false)
    else
      match splitAll '.' host with
      | acct :: p1 :: p2 :: region :: p3 :: p4 :: _partitionSuffix =>
        if p1 = "dkr".data ∧ p2 = "ecr".data ∧ p3 = "amazonaws".data ∧
            p4 = "com".data ∧ acct.length = 12 ∧
            acct.all Char.isDigit = true ∧ region ≠ [] then
          (⟨acct⟩, ⟨region⟩, true)
        else ("", "", false)
      | _ => ("", "", false)

/-- EcrAuthData is one element of the authorizationData list of the ECR
authorization-token response; the token field may be absent. -/
structure EcrAuthData where
  authorizationToken : Option String

/-- EcrResponse is the embedding of the ECR authorization-token endpoint
response: status code, status text and the decoded authorizationData list
(an absent list decodes to []). -/
structure EcrResponse where
  statusCode : Nat
  status : String
  authorizationData : List EcrAuthData

/-- Client is the ECR client; its configuration (endpoint override and
static credentials) does not influence the decode logic verified here. -/
structure Client where
  endpoint : String
  credentials : String × String × String

/-- NewClient creates an ECR client with default configuration. -/
def NewClient : Client := ⟨"", ("", "", "")⟩

/-- WithEndpoint sets the endpoint used by the ECR client. -/
def Client.WithEndpoint (c : Client) (url : String) : Client :=
  ⟨url, c.credentials⟩

/-- WithCredentials sets static credentials on the ECR client. -/
def Client.WithCredentials (c : Client) (creds : String × String × String) :
    Client :=
  ⟨c.endpoint, creds⟩

/-- Modelled from the spec: the AWS exchange (aws getLoginAuth) is absent
from src (only its tests are).  Per the spec, an upstream HTTP error is
propagated as-is; an empty authorization-data list is an invalid response;
the authorizationToken of the first element is base64-decoded and split on
the first colon into username and password; malformed base64 and a missing
colon separator are distinct decode failures. -/
def Client.getLoginAuth (_c : Client) (_accountId _region : String)
    (resp : EcrResponse) : Except RegistryError AuthConfig :=
  if resp.statusCode ≠ 200 then
    .error (.transport resp.status)
  else
    match resp.authorizationData with
    | [] => .error (.invalidResponse "no authorization data")
    | d :: _ =>
      match d.authorizationToken with
      | none => .error (.invalidResponse "no authorization token")
      | some tok =>
        match base64Decode tok with
        | none => .error (.invalidToken "invalid base64 in authorization token")
        | some decoded =>
          match splitFirst ':' decoded.data with
          | none => .error (.invalidToken
              "invalid authorization token, expected username and password separated by a colon")
          | some (u, p) => .ok ⟨⟨u⟩, ⟨p⟩⟩

/-- Modelled from the spec: aws Client.Login is absent from src (only its
tests are).  Per the spec, autoLogin=false fails wrapping
ErrUnconfiguredProvider; otherwise ParseImage must succeed (else an
InvalidImage routing error) and the authorization-token exchange runs with
the parsed account and region. -/
def Client.Login (c : Client) (autoLogin : Bool) (image : String)
    (resp : EcrResponse) : Except RegistryError AuthConfig :=
  if autoLogin then
    match ParseImage image with
    | (acct, region, ok) =>
      if ok then c.getLoginAuth acct region resp
      else .error (.invalidImage ("wrong image provider, expected ECR, got " ++ image))
  else
    .error (.unconfiguredProvider "ECR authentication failed")

end aws

namespace azure

open registry

/-- Modelled from the spec: the azure package is absent from src.  Per the
spec's classifier, an ACR host is one ending with ".azurecr.io". -/
def ValidHost (host : String) : Bool :=
  hasSuffix host ".azurecr.io"

/-- AcrResponse is the embedding of the ACR oauth2/exchange response: status
code, status text and the refresh_token field of the decoded JSON body
(none when the field is absent or the body undecodable). -/
structure AcrResponse where
  statusCode : Nat
  status : String
  refreshToken : Option String

/-- Client is the ACR client: an injected token credential (embedded as the
AAD token it yields, none when acquisition fails) and the exchange URL
scheme. -/
structure Client where
  tokenCredential : Option String
  scheme : String

/-- NewClient creates an ACR client with default configuration. -/
def NewClient : Client := ⟨none, "https"⟩

/-- WithTokenCredential injects the token credential. -/
def Client.WithTokenCredential (c : Client) (tok : String) : Client :=
  ⟨some tok, c.scheme⟩

/-- WithScheme sets the exchange URL scheme. -/
def Client.WithScheme (c : Client) (s : String) : Client :=
  ⟨c.tokenCredential, s⟩

/-- Modelled from the spec: azure Client.Login is absent from src.  Per the
spec, autoLogin=false fails wrapping ErrUnconfiguredProvider; otherwise an
AAD token is acquired from the injected credential and exchanged at the
registry host's own oauth2/exchange endpoint for a refresh token, returned
under ACR's fixed GUID username; a non-200 status or missing refresh_token
is an invalid response. -/
def Client.Login (c : Client) (autoLogin : Bool) (_image : String)
    (_ref : Reference) (resp : AcrResponse) : Except RegistryError AuthConfig :=
  if autoLogin then
    match c.tokenCredential with
    | none => .error (.transport "failed to acquire AAD token")
    | some _aad =>
      if resp.statusCode ≠ 200 then
        .error (.invalidResponse resp.status)
      else
        match resp.refreshToken with
        | none => .error (.invalidResponse "no refresh token in response")
        | some rt => .ok ⟨"00000000-0000-0000-0000-000000000000", rt⟩
  else
    .error (.unconfiguredProvider "ACR authentication failed")

end azure

namespace login

open registry

/-- Modelled from the spec: the login package's classifier
ImageRegistryProvider is absent from src (only its tests are).  Per the
spec, it is a pure total function on the image and its parsed reference,
matching host patterns in precedence order: the ECR pattern (via
aws.ParseImage on the image string), then the GCR hosts (gcp.ValidHost on
the reference's registry host), then the ACR suffix (azure.ValidHost), and
Generic otherwise. -/
def ImageRegistryProvider (image : String) (ref : Reference) : Provider :=
  if (aws.ParseImage image).2.2 then .AWS
  else if gcp.ValidHost ref.registryHost then .GCR
  else if azure.ValidHost ref.registryHost then .Azure
  else .Generic

/-- ProviderOptions carries the per-provider auto-login flags. -/
structure ProviderOptions where
  AwsAutoLogin : Bool
  GcpAutoLogin : Bool
  AzureAutoLogin : Bool

/-- emptyProviderOptions is the zero value ProviderOptions{}. -/
def emptyProviderOptions : ProviderOptions := ⟨false, false, false⟩

/-- Manager holds at most one injected client per provider (none = not
configured). -/
structure Manager where
  ecr : Option aws.Client
  gcr : Option gcp.Client
  acr : Option azure.Client

/-- NewManager creates a Manager with no clients configured. -/
def NewManager : Manager := ⟨none, none, none⟩

/-- WithECRClient injects the ECR client, overwriting any previous one. -/
def Manager.WithECRClient (m : Manager) (c : aws.Client) : Manager :=
  ⟨some c, m.gcr, m.acr⟩

/-- WithGCRClient injects the GCR client, overwriting any previous one. -/
def Manager.WithGCRClient (m : Manager) (c : gcp.Client) : Manager :=
  ⟨m.ecr, some c, m.acr⟩

/-- WithACRClient injects the ACR client, overwriting any previous one. -/
def Manager.WithACRClient (m : Manager) (c : azure.Client) : Manager :=
  ⟨m.ecr, m.gcr, some c⟩

/-- World bundles the responses of the three provider endpoints; it stands
for the single outbound call a delegated exchanger would make. -/
structure World where
  ecrResp : aws.EcrResponse
  gcpResp : HttpResponse
  acrResp : azure.AcrResponse

/-- Modelled from the spec: Manager.Login is absent from src (only its tests
are).  Per the spec, it classifies the image, then: for a provider variant
with no injected client it fails wrapping ErrUnconfiguredProvider; with a
client it delegates to that client's Login with the matching auto-login
flag and propagates the result verbatim; for Generic it performs no
exchange and returns a nil authenticator (ok none) and no error. -/
def Manager.Login (m : Manager) (image : String) (ref : Reference)
    (opts : ProviderOptions) (w : World) :
    Except RegistryError (Option AuthConfig) :=
  match ImageRegistryProvider image ref with
  | .AWS =>
    match m.ecr with
    | none => .error (.unconfiguredProvider "ECR client not configured")
    | some c => (c.Login opts.AwsAutoLogin image w.ecrResp).map some
  | .GCR =>
    match m.gcr with
    | none => .error (.unconfiguredProvider "GCR client not configured")
    | some c => (c.Login opts.GcpAutoLogin image ref w.gcpResp).map some
  | .Azure =>
    match m.acr with
    | none => .error (.unconfiguredProvider "ACR client not configured")
    | some c => (c.Login opts.AzureAutoLogin image ref w.acrResp).map some
  | .Generic => .ok none

end login

namespace spec

open registry

/-- specAwsHostPattern states the claim's AWS host shape in the spec's own
words: dot-separated segments {12-digit-account-id}.dkr.ecr.{region}
.amazonaws.com with a nonempty region, optionally with a .cn or other
partition suffix (further dot-separated segments). -/
def specAwsHostPattern (host : String) : Bool :=
  match splitAll '.' host.data with
  | acct :: p1 :: p2 :: region :: p3 :: p4 :: _partitionSuffix =>
    decide (p1 = "dkr".data ∧ p2 = "ecr".data ∧ p3 = "amazonaws".data ∧
      p4 = "com".data ∧ acct.length = 12 ∧ acct.all Char.isDigit = true ∧
      region ≠ [])
  | _ => false

/-- specGcrHostPattern states the claim's GCR host shape: the host equals
gcr.io, or ends with .gcr.io, or ends with -docker.pkg.dev. -/
def specGcrHostPattern (host : String) : Bool :=
  host == "gcr.io" || hasSuffix host ".gcr.io" || hasSuffix host "-docker.pkg.dev"

/-- specAzureHostPattern states the claim's Azure host shape: the host ends
with .azurecr.io. -/
def specAzureHostPattern (host : String) : Bool :=
  hasSuffix host ".azurecr.io"

/-- classifySpec is the claim's classifier, written from the spec's words:
host patterns evaluated in precedence order AWS, GCR, Azure, Generic. -/
def classifySpec (host : String) : Provider :=
  if specAwsHostPattern host then .AWS
  else if specGcrHostPattern host then .GCR
  else if specAzureHostPattern host then .Azure
  else .Generic

end spec

section Lemmas

/-- hasSuffix s suffix holds exactly when s decomposes as some prefix followed
by suffix. -/
theorem hasSuffix_iff (s suffix : String) :
    hasSuffix s suffix = true ↔ ∃ p : String, s = p ++ suffix := by
  unfold hasSuffix
  rw [List.isSuffixOf_iff_suffix]
  constructor
  · rintro ⟨t, ht⟩
    refine ⟨⟨t⟩, String.ext ?_⟩
    rw [String.data_append]
    exact ht.symm
  · rintro ⟨p, hp⟩
    exact ⟨p.data, by rw [hp, String.data_append]⟩

/-- splitFirst finds nothing exactly when the character is absent. -/
theorem splitFirst_eq_none_iff (c : Char) (l : List Char) :
    splitFirst c l = none ↔ c ∉ l := by
  induction l with
  | nil => simp [splitFirst]
  | cons x xs ih =>
    by_cases h : x = c
    · subst h
      simp [splitFirst]
    · rw [splitFirst, if_neg h, Option.map_eq_none', ih, List.mem_cons]
      constructor
      · intro hxs hor
        rcases hor with hc | hc
        · exact h hc.symm
        · exact hxs hc
      · intro hall
        intro hc
        exact hall (Or.inr hc)

/-- splitFirst on a list shaped prefix-c-rest, with c absent from the prefix,
splits at that occurrence. -/
theorem splitFirst_append (c : Char) (a b : List Char) (h : c ∉ a) :
    splitFirst c (a ++ c :: b) = some (a, b) := by
  induction a with
  | nil => simp [splitFirst]
  | cons x xs ih =>
    have hx : ¬x = c := fun hh => h (hh ▸ List.mem_cons_self x xs)
    have hxs : c ∉ xs := fun hm => h (List.mem_cons_of_mem _ hm)
    simp [splitFirst, hx, ih hxs]

/-- splitAll on a list not containing the separator is the singleton of that
list. -/
theorem splitAll_of_not_mem (c : Char) (l : List Char) (h : c ∉ l) :
    splitAll c l = [l] := by
  induction l with
  | nil => rfl
  | cons x xs ih =>
    have hx : ¬x = c := fun hh => h (hh ▸ List.mem_cons_self x xs)
    have hxs : c ∉ xs := fun hm => h (List.mem_cons_of_mem _ hm)
    simp [splitAll, hx, ih hxs]

/-- splitAll peels one separator occurrence off the front when the separator
is absent from the part before it. -/
theorem splitAll_append (c : Char) (a b : List Char) (h : c ∉ a) :
    splitAll c (a ++ c :: b) = a :: splitAll c b := by
  induction a with
  | nil => simp [splitAll]
  | cons x xs ih =>
    have hx : ¬x = c := fun hh => h (hh ▸ List.mem_cons_self x xs)
    have hxs : c ∉ xs := fun hm => h (List.mem_cons_of_mem _ hm)
    simp [splitAll, hx, ih hxs]

/-- data of host ++ "/" ++ path is the host characters, a slash, the path
characters. -/
theorem data_host_slash_path (host path : String) :
    (host ++ "/" ++ path).data = host.data ++ '/' :: path.data := by
  rw [String.data_append, String.data_append, List.append_assoc]
  rfl

/-- a nonempty string has nonempty data. -/
theorem data_ne_nil_of_ne_empty (s : String) (h : s ≠ "") : s.data ≠ [] := by
  intro hd
  exact h (String.ext hd)

end Lemmas

section EcrLemmas

/-- data of the ECR-shaped host decomposes at each dot. -/
theorem ecrHost_data (acct region : String) :
    (acct ++ ".dkr.ecr." ++ region ++ ".amazonaws.com").data =
      acct.data ++ '.' :: ("dkr".data ++ '.' :: ("ecr".data ++ '.' ::
        (region.data ++ '.' :: ("amazonaws".data ++ '.' :: "com".data)))) := by
  rw [String.data_append, String.data_append, String.data_append,
    List.append_assoc, List.append_assoc]
  rfl

/-- splitting the ECR-shaped host on dots yields exactly its six segments
when the account and region contain no dot. -/
theorem ecrHost_splitAll (acct region : String)
    (ha : '.' ∉ acct.data) (hr : '.' ∉ region.data) :
    splitAll '.' (acct ++ ".dkr.ecr." ++ region ++ ".amazonaws.com").data =
      [acct.data, "dkr".data, "ecr".data, region.data, "amazonaws".data,
        "com".data] := by
  rw [ecrHost_data, splitAll_append '.' acct.data _ ha,
    splitAll_append '.' "dkr".data _ (by decide),
    splitAll_append '.' "ecr".data _ (by decide),
    splitAll_append '.' region.data _ hr,
    splitAll_append '.' "amazonaws".data _ (by decide),
    splitAll_of_not_mem '.' "com".data (by decide)]

/-- the ECR-shaped host contains no slash when account and region do not. -/
theorem ecrHost_no_slash (acct region : String)
    (haslash : '/' ∉ acct.data) (hrslash : '/' ∉ region.data) :
    '/' ∉ (acct ++ ".dkr.ecr." ++ region ++ ".amazonaws.com").data := by
  rw [ecrHost_data]
  intro hm
  simp only [List.mem_append, List.mem_cons] at hm
  simp at hm
  rcases hm with h | h
  · exact haslash h
  · exact hrslash h

/-- ParseImage on an image of shape host/path reduces to the host pattern
check on the dot-split of the host. -/
theorem ParseImage_host_path (host path : String) (h : '/' ∉ host.data)
    (hp : path ≠ "") :
    aws.ParseImage (host ++ "/" ++ path) =
      (match splitAll '.' host.data with
       | acct :: p1 :: p2 :: region :: p3 :: p4 :: _partitionSuffix =>
         if p1 = "dkr".data ∧ p2 = "ecr".data ∧ p3 = "amazonaws".data ∧
             p4 = "com".data ∧ acct.length = 12 ∧
             acct.all Char.isDigit = true ∧ region ≠ [] then
           (⟨acct⟩, ⟨region⟩, true)
         else ("", "", false)
       | _ => ("", "", false)) := by
  unfold aws.ParseImage
  rw [data_host_slash_path, splitFirst_append '/' host.data path.data h]
  simp [data_ne_nil_of_ne_empty path hp]

/-- ParseImage succeeds on a host/path image exactly when the host matches
the spec's AWS host pattern. -/
theorem ParseImage_ok_iff (host path : String) (h : '/' ∉ host.data)
    (hp : path ≠ "") :
    (aws.ParseImage (host ++ "/" ++ path)).2.2 = spec.specAwsHostPattern host := by
  rw [ParseImage_host_path host path h hp]
  unfold spec.specAwsHostPattern
  rcases hs : splitAll '.' host.data with
    _ | ⟨a, _ | ⟨b, _ | ⟨c, _ | ⟨d, _ | ⟨e, _ | ⟨f, rest⟩⟩⟩⟩⟩⟩
  all_goals simp
  all_goals split
  all_goals simp_all

/-- ParseImage rejects a host/path image whose host does not match the
spec's AWS host pattern, returning empty components and ok=false. -/
theorem ParseImage_not_pattern (host path : String) (h : '/' ∉ host.data)
    (hp : path ≠ "") (hpat : spec.specAwsHostPattern host = false) :
    aws.ParseImage (host ++ "/" ++ path) = ("", "", false) := by
  rw [ParseImage_host_path host path h hp]
  unfold spec.specAwsHostPattern at hpat
  rcases hs : splitAll '.' host.data with
    _ | ⟨a, _ | ⟨b, _ | ⟨c, _ | ⟨d, _ | ⟨e, _ | ⟨f, rest⟩⟩⟩⟩⟩⟩
  all_goals simp_all

/-- ParseImage rejects a registry-only image with no slash at all. -/
theorem ParseImage_bare_host (host : String) (h : '/' ∉ host.data) :
    aws.ParseImage host = ("", "", false) := by
  unfold aws.ParseImage
  rw [(splitFirst_eq_none_iff '/' host.data).mpr h]

/-- ParseImage returns the account and region of a well-shaped ECR image
with a repository path. -/
theorem ParseImage_pattern (acct region path : String)
    (ha12 : acct.length = 12) (had : acct.data.all Char.isDigit = true)
    (hadot : '.' ∉ acct.data) (haslash : '/' ∉ acct.data)
    (hrdot : '.' ∉ region.data) (hrslash : '/' ∉ region.data)
    (hrne : region ≠ "") (hpne : path ≠ "") :
    aws.ParseImage
        (acct ++ ".dkr.ecr." ++ region ++ ".amazonaws.com" ++ "/" ++ path) =
      (acct, region, true) := by
  rw [ParseImage_host_path _ _ (ecrHost_no_slash acct region haslash hrslash) hpne]
  rw [ecrHost_splitAll acct region hadot hrdot]
  show (if "dkr".data = "dkr".data ∧ "ecr".data = "ecr".data ∧
      "amazonaws".data = "amazonaws".data ∧ "com".data = "com".data ∧
      acct.data.length = 12 ∧ acct.data.all Char.isDigit = true ∧
      region.data ≠ [] then
      ((⟨acct.data⟩ : String), (⟨region.data⟩ : String), true)
    else ("", "", false)) = (acct, region, true)
  rw [if_pos ⟨rfl, rfl, rfl, rfl, ha12, had, data_ne_nil_of_ne_empty region hrne⟩]

/-- data of the ECR-shaped host carrying a partition suffix decomposes at
each dot, the suffix after a final dot. -/
theorem ecrHostP_data (acct region t : String) :
    (acct ++ ".dkr.ecr." ++ region ++ ".amazonaws.com" ++ ("." ++ t)).data =
      acct.data ++ '.' :: ("dkr".data ++ '.' :: ("ecr".data ++ '.' ::
        (region.data ++ '.' :: ("amazonaws".data ++ '.' ::
          ("com".data ++ '.' :: t.data))))) := by
  rw [String.data_append, String.data_append, String.data_append,
    String.data_append, List.append_assoc, List.append_assoc, List.append_assoc]
  rfl

/-- splitting the partition-suffixed ECR host on dots yields its six fixed
segments followed by the dot-split of the suffix. -/
theorem ecrHostP_splitAll (acct region t : String)
    (ha : '.' ∉ acct.data) (hr : '.' ∉ region.data) :
    splitAll '.' (acct ++ ".dkr.ecr." ++ region ++ ".amazonaws.com" ++
        ("." ++ t)).data =
      acct.data :: "dkr".data :: "ecr".data :: region.data ::
        "amazonaws".data :: "com".data :: splitAll '.' t.data := by
  rw [ecrHostP_data, splitAll_append '.' acct.data _ ha,
    splitAll_append '.' "dkr".data _ (by decide),
    splitAll_append '.' "ecr".data _ (by decide),
    splitAll_append '.' region.data _ hr,
    splitAll_append '.' "amazonaws".data _ (by decide),
    splitAll_append '.' "com".data _ (by decide)]

/-- the partition-suffixed ECR host contains no slash when the account, the
region and the suffix do not. -/
theorem ecrHostP_no_slash (acct region t : String)
    (haslash : '/' ∉ acct.data) (hrslash : '/' ∉ region.data)
    (htslash : '/' ∉ t.data) :
    '/' ∉ (acct ++ ".dkr.ecr." ++ region ++ ".amazonaws.com" ++
      ("." ++ t)).data := by
  rw [ecrHostP_data]
  intro hm
  simp only [List.mem_append, List.mem_cons] at hm
  simp at hm
  rcases hm with h | h | h
  · exact haslash h
  · exact hrslash h
  · exact htslash h

/-- ParseImage returns the account and region of a well-shaped ECR image
whose host carries a partition suffix after amazonaws.com. -/
theorem ParseImage_pattern_suffixed (acct region t path : String)
    (ha12 : acct.length = 12) (had : acct.data.all Char.isDigit = true)
    (hadot : '.' ∉ acct.data) (haslash : '/' ∉ acct.data)
    (hrdot : '.' ∉ region.data) (hrslash : '/' ∉ region.data)
    (hrne : region ≠ "") (htslash : '/' ∉ t.data) (hpne : path ≠ "") :
    aws.ParseImage
        (acct ++ ".dkr.ecr." ++ region ++ ".amazonaws.com" ++ ("." ++ t) ++
          "/" ++ path) =
      (acct, region, true) := by
  rw [ParseImage_host_path _ _
    (ecrHostP_no_slash acct region t haslash hrslash htslash) hpne]
  rw [ecrHostP_splitAll acct region t hadot hrdot]
  show (if "dkr".data = "dkr".data ∧ "ecr".data = "ecr".data ∧
      "amazonaws".data = "amazonaws".data ∧ "com".data = "com".data ∧
      acct.data.length = 12 ∧ acct.data.all Char.isDigit = true ∧
      region.data ≠ [] then
      ((⟨acct.data⟩ : String), (⟨region.data⟩ : String), true)
    else ("", "", false)) = (acct, region, true)
  rw [if_pos ⟨rfl, rfl, rfl, rfl, ha12, had, data_ne_nil_of_ne_empty region hrne⟩]

end EcrLemmas

section GcpLemmas

/-- Login with autoLogin performs exactly the metadata exchange. -/
theorem gcp_Login_true (c : gcp.Client) (image : String)
    (ref : registry.Reference) (resp : HttpResponse) :
    gcp.Client.Login c true image ref resp = gcp.Client.getLoginAuth c resp := rfl

/-- the exchange succeeds on a 200 response whose body decodes with the three
token fields, yielding the fixed username and the access token. -/
theorem gcp_getLoginAuth_ok (c : gcp.Client) (resp : HttpResponse)
    (fields : List (String × Json)) (tok tt : String) (n : Int)
    (hsc : resp.statusCode = 200) (hb : resp.body = some (.obj fields))
    (hat : jsonLookup "access_token" fields = some (.str tok))
    (hei : jsonLookup "expires_in" fields = some (.num n))
    (htt : jsonLookup "token_type" fields = some (.str tt)) :
    gcp.Client.getLoginAuth c resp = .ok ⟨"oauth2accesstoken", tok⟩ := by
  have h1 : gcp.decodeStrField fields "access_token" = .ok tok := by
    unfold gcp.decodeStrField; rw [hat]
  have h2 : gcp.decodeIntField fields "expires_in" = .ok n := by
    unfold gcp.decodeIntField; rw [hei]
  have h3 : gcp.decodeStrField fields "token_type" = .ok tt := by
    unfold gcp.decodeStrField; rw [htt]
  unfold gcp.Client.getLoginAuth
  rw [hsc, hb]
  simp [gcp.gceToken.decode, h1, h2, h3, Bind.bind, Except.bind]

/-- the exchange fails with the upstream status text on a non-200 status. -/
theorem gcp_getLoginAuth_bad_status (c : gcp.Client) (resp : HttpResponse)
    (hsc : resp.statusCode ≠ 200) :
    gcp.Client.getLoginAuth c resp = .error (.unexpectedStatus resp.status) := by
  unfold gcp.Client.getLoginAuth
  rw [if_pos hsc]

/-- the exchange fails as an invalid response on a 200 status with an
undecodable body. -/
theorem gcp_getLoginAuth_bad_json (c : gcp.Client) (resp : HttpResponse)
    (hsc : resp.statusCode = 200) (hb : resp.body = none) :
    gcp.Client.getLoginAuth c resp =
      .error (.invalidResponse "json: body is not valid JSON") := by
  unfold gcp.Client.getLoginAuth
  rw [hsc, hb]
  simp

/-- the exchange succeeds with an empty password when the body is a JSON
object lacking access_token and the remaining fields decode. -/
theorem gcp_getLoginAuth_missing_token (c : gcp.Client) (resp : HttpResponse)
    (fields : List (String × Json)) (tt : String) (n : Int)
    (hsc : resp.statusCode = 200) (hb : resp.body = some (.obj fields))
    (hat : jsonLookup "access_token" fields = none)
    (hei : gcp.decodeIntField fields "expires_in" = .ok n)
    (htt : gcp.decodeStrField fields "token_type" = .ok tt) :
    gcp.Client.getLoginAuth c resp = .ok ⟨"oauth2accesstoken", ""⟩ := by
  have h1 : gcp.decodeStrField fields "access_token" = .ok "" := by
    unfold gcp.decodeStrField; rw [hat]
  unfold gcp.Client.getLoginAuth
  rw [hsc, hb]
  simp [gcp.gceToken.decode, h1, hei, htt, Bind.bind, Except.bind]

end GcpLemmas

section ClaimsGcp

open registry

/-- Claim C2: for every string host, gcp.ValidHost host returns true if and
only if host equals "gcr.io", or ends with ".gcr.io", or ends with
"-docker.pkg.dev"; in particular ValidHost "docker.io" is false. -/
theorem claim_C2_ValidHost :
    (∀ host : String, gcp.ValidHost host = true ↔
      (host = "gcr.io" ∨ (∃ p, host = p ++ ".gcr.io") ∨
        ∃ p, host = p ++ "-docker.pkg.dev"))
    ∧ gcp.ValidHost "docker.io" = false := by
  constructor
  · intro host
    unfold gcp.ValidHost
    rw [Bool.or_eq_true, Bool.or_eq_true, beq_iff_eq, hasSuffix_iff, hasSuffix_iff]
    exact or_assoc
  · rfl

/-- Witness for C2 at the hosts of TestValidHost: foo.gcr.io is valid via the
suffix clause, docker.io is not. -/
theorem claim_C2_ValidHost_witness :
    gcp.ValidHost "foo.gcr.io" = true ∧ gcp.ValidHost "docker.io" = false :=
  ⟨(claim_C2_ValidHost.1 "foo.gcr.io").mpr (Or.inr (Or.inl ⟨"foo", rfl⟩)),
    claim_C2_ValidHost.2⟩

/-- Claim C3: for every client, image, reference and endpoint behavior, GCP
Login with autoLogin = false returns no authenticator, only an error
wrapping ErrUnconfiguredProvider, and its result does not depend on the
token endpoint's response (no token exchange is performed). -/
theorem claim_C3_gcp_login_disabled (c : gcp.Client) (image : String)
    (ref : Reference) (resp resp' : HttpResponse) :
    gcp.Client.Login c false image ref resp =
        .error (.unconfiguredProvider "GCR authentication failed")
      ∧ RegistryError.wrapsUnconfiguredProvider
          (.unconfiguredProvider "GCR authentication failed") = true
      ∧ gcp.Client.Login c false image ref resp =
          gcp.Client.Login c false image ref resp' :=
  ⟨rfl, rfl, rfl⟩

/-- Claim C4: on a 200 metadata response whose JSON body carries
access_token, expires_in and token_type, the GCP exchange and Login with
autoLogin succeed with exactly Username "oauth2accesstoken" (a constant
independent of the client c) and Password equal to the access token;
expires_in and token_type are arbitrary and do not affect the result. -/
theorem claim_C4_gcp_exchange_success (c : gcp.Client) (image : String)
    (ref : Reference) (resp : HttpResponse) (fields : List (String × Json))
    (tok tt : String) (n : Int)
    (hsc : resp.statusCode = 200) (hb : resp.body = some (.obj fields))
    (hat : jsonLookup "access_token" fields = some (.str tok))
    (hei : jsonLookup "expires_in" fields = some (.num n))
    (htt : jsonLookup "token_type" fields = some (.str tt)) :
    gcp.Client.getLoginAuth c resp = .ok ⟨"oauth2accesstoken", tok⟩
    ∧ gcp.Client.Login c true image ref resp = .ok ⟨"oauth2accesstoken", tok⟩ :=
  have h := gcp_getLoginAuth_ok c resp fields tok tt n hsc hb hat hei htt
  ⟨h, (gcp_Login_true c image ref resp).trans h⟩

/-- Witness for C4 at the body of TestGetLoginAuth's success case. -/
theorem claim_C4_gcp_exchange_success_witness :
    gcp.Client.getLoginAuth gcp.NewClient
        ⟨200, "200 OK", some (.obj [("access_token", Json.str "some-token"),
          ("expires_in", Json.num 10), ("token_type", Json.str "foo")])⟩ =
      .ok ⟨"oauth2accesstoken", "some-token"⟩
    ∧ gcp.Client.Login gcp.NewClient true "gcr.io/foo/bar:v1" ⟨"gcr.io", "foo/bar"⟩
        ⟨200, "200 OK", some (.obj [("access_token", Json.str "some-token"),
          ("expires_in", Json.num 10), ("token_type", Json.str "foo")])⟩ =
      .ok ⟨"oauth2accesstoken", "some-token"⟩ :=
  claim_C4_gcp_exchange_success gcp.NewClient "gcr.io/foo/bar:v1"
    ⟨"gcr.io", "foo/bar"⟩ _ _ "some-token" "foo" 10 rfl rfl rfl rfl rfl

/-- Claim C5: on a non-200 metadata response the GCP exchange fails with an
error carrying the upstream status text (the rendered message contains it);
on a 200 response whose body is not decodable JSON it fails with an
invalid-response error; in both cases Login returns no authenticator, only
the error (the AuthConfig of getLoginAuth stays the zero value). -/
theorem claim_C5_gcp_exchange_failures (c : gcp.Client) (image : String)
    (ref : Reference) (resp : HttpResponse) :
    (resp.statusCode ≠ 200 →
      gcp.Client.getLoginAuth c resp = .error (.unexpectedStatus resp.status)
      ∧ (∃ a b, (RegistryError.unexpectedStatus resp.status).message =
          a ++ resp.status ++ b)
      ∧ gcp.Client.Login c true image ref resp =
          .error (.unexpectedStatus resp.status))
    ∧ (resp.statusCode = 200 → resp.body = none →
      gcp.Client.getLoginAuth c resp =
          .error (.invalidResponse "json: body is not valid JSON")
      ∧ gcp.Client.Login c true image ref resp =
          .error (.invalidResponse "json: body is not valid JSON")) := by
  constructor
  · intro hsc
    have h := gcp_getLoginAuth_bad_status c resp hsc
    refine ⟨h, ⟨"unexpected status from metadata service: ", "", ?_⟩,
      (gcp_Login_true c image ref resp).trans h⟩
    rw [String.append_empty]
    rfl
  · intro hsc hb
    have h := gcp_getLoginAuth_bad_json c resp hsc hb
    exact ⟨h, (gcp_Login_true c image ref resp).trans h⟩

/-- Witness for C5 at the two failing cases of TestGetLoginAuth: a 500
status and a 200 status with the non-JSON body "foo". -/
theorem claim_C5_gcp_exchange_failures_witness :
    gcp.Client.getLoginAuth gcp.NewClient ⟨500, "500 Internal Server Error", none⟩ =
        .error (.unexpectedStatus "500 Internal Server Error")
    ∧ gcp.Client.getLoginAuth gcp.NewClient ⟨200, "200 OK", none⟩ =
        .error (.invalidResponse "json: body is not valid JSON") :=
  ⟨(claim_C5_gcp_exchange_failures gcp.NewClient "gcr.io/foo/bar:v1"
      ⟨"gcr.io", "foo/bar"⟩ ⟨500, "500 Internal Server Error", none⟩).1
      (by decide) |>.1,
    (claim_C5_gcp_exchange_failures gcp.NewClient "gcr.io/foo/bar:v1"
      ⟨"gcr.io", "foo/bar"⟩ ⟨200, "200 OK", none⟩).2 rfl rfl |>.1⟩

/-- Claim C6: GCP Login does not validate the image host: with autoLogin the
result is independent of the image and reference arguments, equals the
metadata exchange itself, and succeeds for any image (including non-GCR
ones) whenever the endpoint returns a valid 200 token response. -/
theorem claim_C6_gcp_login_ignores_image (c : gcp.Client) (image image' : String)
    (ref ref' : Reference) (resp : HttpResponse) :
    gcp.Client.Login c true image ref resp = gcp.Client.Login c true image' ref' resp
    ∧ gcp.Client.Login c true image ref resp = gcp.Client.getLoginAuth c resp
    ∧ (∀ (fields : List (String × Json)) (tok tt : String) (n : Int),
      resp.statusCode = 200 → resp.body = some (.obj fields) →
      jsonLookup "access_token" fields = some (.str tok) →
      jsonLookup "expires_in" fields = some (.num n) →
      jsonLookup "token_type" fields = some (.str tt) →
      gcp.Client.Login c true image ref resp = .ok ⟨"oauth2accesstoken", tok⟩) :=
  ⟨rfl, rfl, fun fields tok tt n hsc hb hat hei htt =>
    (gcp_Login_true c image ref resp).trans
      (gcp_getLoginAuth_ok c resp fields tok tt n hsc hb hat hei htt)⟩

/-- Witness for C6 at TestLogin's "non GCR image" case: Login on foo/bar:v1
succeeds against a valid 200 token response. -/
theorem claim_C6_gcp_login_ignores_image_witness :
    gcp.Client.Login gcp.NewClient true "foo/bar:v1" ⟨"index.docker.io", "foo/bar"⟩
        ⟨200, "200 OK", some (.obj [("access_token", Json.str "some-token"),
          ("expires_in", Json.num 10), ("token_type", Json.str "foo")])⟩ =
      .ok ⟨"oauth2accesstoken", "some-token"⟩ :=
  (claim_C6_gcp_login_ignores_image gcp.NewClient "foo/bar:v1" "gcr.io/foo/bar:v1"
      ⟨"index.docker.io", "foo/bar"⟩ ⟨"gcr.io", "foo/bar"⟩ _).2.2
    [("access_token", Json.str "some-token"), ("expires_in", Json.num 10),
      ("token_type", Json.str "foo")] "some-token" "foo" 10 rfl rfl rfl rfl rfl

/-- Claim C10 (implicit): a 200 metadata response whose JSON object body
lacks access_token does not fail: the exchange returns Username
"oauth2accesstoken" with an empty Password, rather than an InvalidResponse
error — the missing field decodes to the string zero value. -/
theorem claim_C10_missing_access_token (c : gcp.Client) (resp : HttpResponse)
    (fields : List (String × Json)) (tt : String) (n : Int)
    (hsc : resp.statusCode = 200) (hb : resp.body = some (.obj fields))
    (hat : jsonLookup "access_token" fields = none)
    (hei : gcp.decodeIntField fields "expires_in" = .ok n)
    (htt : gcp.decodeStrField fields "token_type" = .ok tt) :
    gcp.Client.getLoginAuth c resp = .ok ⟨"oauth2accesstoken", ""⟩ :=
  gcp_getLoginAuth_missing_token c resp fields tt n hsc hb hat hei htt

/-- Witness for C10 at the empty JSON object body. -/
theorem claim_C10_missing_access_token_witness :
    gcp.Client.getLoginAuth gcp.NewClient ⟨200, "200 OK", some (.obj [])⟩ =
      .ok ⟨"oauth2accesstoken", ""⟩ :=
  claim_C10_missing_access_token gcp.NewClient ⟨200, "200 OK", some (.obj [])⟩
    [] "" 0 rfl rfl rfl rfl rfl

end ClaimsGcp

section ManagerLemmas

open registry

/-- the AWS exchange on a 200 response decodes the first authorization
token from base64 and splits it at the first colon into the credentials. -/
theorem aws_getLoginAuth_decode (c : aws.Client) (acct region : String)
    (resp : aws.EcrResponse) (d : aws.EcrAuthData) (rest : List aws.EcrAuthData)
    (tok decoded : String) (u p : List Char)
    (hsc : resp.statusCode = 200)
    (hdata : resp.authorizationData = d :: rest)
    (htok : d.authorizationToken = some tok)
    (hb64 : aws.base64Decode tok = some decoded)
    (hsplit : splitFirst ':' decoded.data = some (u, p)) :
    aws.Client.getLoginAuth c acct region resp = .ok ⟨⟨u⟩, ⟨p⟩⟩ := by
  unfold aws.Client.getLoginAuth
  rw [hsc, hdata]
  simp [htok, hb64, hsplit]

/-- Manager.Login on a Generic-classified image returns ok none for every
option set and every endpoint behavior. -/
theorem manager_Login_generic (m : login.Manager) (image : String)
    (ref : Reference) (opts : login.ProviderOptions) (w : login.World)
    (hg : login.ImageRegistryProvider image ref = .Generic) :
    login.Manager.Login m image ref opts w = .ok none := by
  unfold login.Manager.Login
  rw [hg]

/-- Manager.Login returns ok none only on a Generic-classified image: every
delegated branch produces either an error or a credential. -/
theorem manager_generic_cases (m : login.Manager) (image : String)
    (ref : Reference) (opts : login.ProviderOptions) (w : login.World)
    (h : login.Manager.Login m image ref opts w = .ok none) :
    login.ImageRegistryProvider image ref = .Generic := by
  unfold login.Manager.Login at h
  rcases hcls : login.ImageRegistryProvider image ref
  · rw [hcls] at h
    rcases hm : m.ecr with _ | c
    · rw [hm] at h
      simp at h
    · rw [hm] at h
      rcases hl : aws.Client.Login c opts.AwsAutoLogin image w.ecrResp with e | a
      · simp [hl, Except.map] at h
      · simp [hl, Except.map] at h
  · rw [hcls] at h
    rcases hm : m.gcr with _ | c
    · rw [hm] at h
      simp at h
    · rw [hm] at h
      rcases hl : gcp.Client.Login c opts.GcpAutoLogin image ref w.gcpResp with e | a
      · simp [hl, Except.map] at h
      · simp [hl, Except.map] at h
  · rw [hcls] at h
    rcases hm : m.acr with _ | c
    · rw [hm] at h
      simp at h
    · rw [hm] at h
      rcases hl : azure.Client.Login c opts.AzureAutoLogin image ref w.acrResp with e | a
      · simp [hl, Except.map] at h
      · simp [hl, Except.map] at h
  · rfl

end ManagerLemmas

section ClaimsRouting

open registry

/-- Claim C1: the provider classifier ImageRegistryProvider is a pure total
function of the image and its parsed reference (a total Lean function by
construction, with no error outcome), and it matches host patterns in
precedence order — the ECR shape {12-digit-account-id}.dkr.ecr.{region}
.amazonaws.com, optionally with a .cn or other partition suffix, gives AWS,
else gcr.io / *.gcr.io / *-docker.pkg.dev gives GCR, else *.azurecr.io
gives Azure, else Generic.  Formalized as a refinement against
classifySpec, the claim's precedence-ordered pattern match on the host
alone: first, on any image host/path whose parsed reference carries that
host; second, on every (image, reference) pair whatsoever — covering
docker.io-style images such as foo/bar:v1 whose parsed registry host
index.docker.io differs from the image's first segment — whenever neither
the image nor the reference host matches the ECR pattern, the classifier
agrees with classifySpec on the reference's registry host. -/
theorem claim_C1_classifier (image : String) (ref : Reference) :
    (∀ host path : String, '/' ∉ host.data → path ≠ "" →
      image = host ++ "/" ++ path → ref.registryHost = host →
      login.ImageRegistryProvider image ref = spec.classifySpec host)
    ∧ ((aws.ParseImage image).2.2 = false →
      spec.specAwsHostPattern ref.registryHost = false →
      login.ImageRegistryProvider image ref =
        spec.classifySpec ref.registryHost) := by
  constructor
  · intro host path hslash hpath himg href
    subst himg
    unfold login.ImageRegistryProvider spec.classifySpec
    rw [href, ParseImage_ok_iff host path hslash hpath]
    rfl
  · intro hpi hpat
    unfold login.ImageRegistryProvider spec.classifySpec
    rw [hpi, hpat]
    rfl

/-- Witness for C1 at the four (image, reference) pairs of
TestImageRegistryProvider — including the docker.io-style pair whose
reference host index.docker.io does not occur in the image — and at a
partition-suffixed .cn ECR image. -/
theorem claim_C1_classifier_witness :
    login.ImageRegistryProvider
        ("012345678901.dkr.ecr.us-east-1.amazonaws.com" ++ "/" ++ "foo:v1")
        ⟨"012345678901.dkr.ecr.us-east-1.amazonaws.com", "foo"⟩ =
      spec.classifySpec "012345678901.dkr.ecr.us-east-1.amazonaws.com"
    ∧ login.ImageRegistryProvider
        ("012345678901.dkr.ecr.cn-north-1.amazonaws.com.cn" ++ "/" ++ "foo:v1")
        ⟨"012345678901.dkr.ecr.cn-north-1.amazonaws.com.cn", "foo"⟩ =
      spec.classifySpec "012345678901.dkr.ecr.cn-north-1.amazonaws.com.cn"
    ∧ login.ImageRegistryProvider ("gcr.io" ++ "/" ++ "foo/bar:v1")
        ⟨"gcr.io", "foo/bar"⟩ = spec.classifySpec "gcr.io"
    ∧ login.ImageRegistryProvider ("foo.azurecr.io" ++ "/" ++ "bar:v1")
        ⟨"foo.azurecr.io", "bar"⟩ = spec.classifySpec "foo.azurecr.io"
    ∧ login.ImageRegistryProvider "foo/bar:v1" ⟨"index.docker.io", "foo/bar"⟩ =
        spec.classifySpec "index.docker.io"
    ∧ spec.classifySpec "012345678901.dkr.ecr.us-east-1.amazonaws.com" = .AWS
    ∧ spec.classifySpec "012345678901.dkr.ecr.cn-north-1.amazonaws.com.cn" = .AWS
    ∧ spec.classifySpec "gcr.io" = .GCR
    ∧ spec.classifySpec "foo.azurecr.io" = .Azure
    ∧ spec.classifySpec "index.docker.io" = .Generic :=
  ⟨(claim_C1_classifier
        ("012345678901.dkr.ecr.us-east-1.amazonaws.com" ++ "/" ++ "foo:v1")
        ⟨"012345678901.dkr.ecr.us-east-1.amazonaws.com", "foo"⟩).1
      "012345678901.dkr.ecr.us-east-1.amazonaws.com" "foo:v1"
      (by decide) (by decide) rfl rfl,
    (claim_C1_classifier
        ("012345678901.dkr.ecr.cn-north-1.amazonaws.com.cn" ++ "/" ++ "foo:v1")
        ⟨"012345678901.dkr.ecr.cn-north-1.amazonaws.com.cn", "foo"⟩).1
      "012345678901.dkr.ecr.cn-north-1.amazonaws.com.cn" "foo:v1"
      (by decide) (by decide) rfl rfl,
    (claim_C1_classifier ("gcr.io" ++ "/" ++ "foo/bar:v1")
        ⟨"gcr.io", "foo/bar"⟩).1 "gcr.io" "foo/bar:v1"
      (by decide) (by decide) rfl rfl,
    (claim_C1_classifier ("foo.azurecr.io" ++ "/" ++ "bar:v1")
        ⟨"foo.azurecr.io", "bar"⟩).1 "foo.azurecr.io" "bar:v1"
      (by decide) (by decide) rfl rfl,
    (claim_C1_classifier "foo/bar:v1" ⟨"index.docker.io", "foo/bar"⟩).2 rfl rfl,
    rfl, rfl, rfl, rfl, rfl⟩

/-- Claim C7: AWS ParseImage returns (accountID, region, true) on every
image whose registry host has the ECR shape — optionally carrying a .cn or
other partition suffix after amazonaws.com — and that carries a repository
path (the path, tagged or not, is any nonempty string after the host), and
returns ("", "", false) — it is a total function, with no error or panic
outcome — for a host/path image whose host does not match the pattern, for
any image without a slash, and in particular for the bare ECR registry
host. -/
theorem claim_C7_ParseImage :
    (∀ acct region suffix path : String,
      acct.length = 12 → acct.data.all Char.isDigit = true →
      '.' ∉ acct.data → '/' ∉ acct.data →
      '.' ∉ region.data → '/' ∉ region.data → region ≠ "" →
      (suffix = "" ∨ ∃ t : String, suffix = "." ++ t ∧ '/' ∉ t.data) →
      path ≠ "" →
      aws.ParseImage
          (acct ++ ".dkr.ecr." ++ region ++ ".amazonaws.com" ++ suffix ++
            "/" ++ path) =
        (acct, region, true))
    ∧ (∀ host path : String, '/' ∉ host.data → path ≠ "" →
      spec.specAwsHostPattern host = false →
      aws.ParseImage (host ++ "/" ++ path) = ("", "", false))
    ∧ (∀ host : String, '/' ∉ host.data → aws.ParseImage host = ("", "", false))
    ∧ aws.ParseImage "012345678901.dkr.ecr.us-east-1.amazonaws.com" =
        ("", "", false) := by
  refine ⟨?_, ?_, ?_, ?_⟩
  · intro acct region suffix path h1 h2 h3 h4 h5 h6 h7 hsuf h8
    rcases hsuf with rfl | ⟨t, rfl, ht⟩
    · rw [String.append_empty]
      exact ParseImage_pattern acct region path h1 h2 h3 h4 h5 h6 h7 h8
    · exact ParseImage_pattern_suffixed acct region t path h1 h2 h3 h4 h5 h6
        h7 ht h8
  · exact fun host path h hp hpat => ParseImage_not_pattern host path h hp hpat
  · exact fun host h => ParseImage_bare_host host h
  · exact ParseImage_bare_host "012345678901.dkr.ecr.us-east-1.amazonaws.com"
      (by decide)

/-- Witness for C7 at TestParseImage's cases — the tagged and untagged ECR
images parse, the foreign host gcr.io does not — plus a partition-suffixed
.cn ECR image, which parses. -/
theorem claim_C7_ParseImage_witness :
    aws.ParseImage
        ("012345678901" ++ ".dkr.ecr." ++ "us-east-1" ++ ".amazonaws.com" ++
          "" ++ "/" ++ "foo:v1") = ("012345678901", "us-east-1", true)
    ∧ aws.ParseImage
        ("012345678901" ++ ".dkr.ecr." ++ "us-east-1" ++ ".amazonaws.com" ++
          "" ++ "/" ++ "foo") = ("012345678901", "us-east-1", true)
    ∧ aws.ParseImage
        ("012345678901" ++ ".dkr.ecr." ++ "cn-north-1" ++ ".amazonaws.com" ++
          ".cn" ++ "/" ++ "foo:v1") = ("012345678901", "cn-north-1", true)
    ∧ aws.ParseImage ("gcr.io" ++ "/" ++ "foo/bar:baz") = ("", "", false) :=
  ⟨claim_C7_ParseImage.1 "012345678901" "us-east-1" "" "foo:v1" (by decide)
      (by decide) (by decide) (by decide) (by decide) (by decide) (by decide)
      (Or.inl rfl) (by decide),
    claim_C7_ParseImage.1 "012345678901" "us-east-1" "" "foo" (by decide)
      (by decide) (by decide) (by decide) (by decide) (by decide) (by decide)
      (Or.inl rfl) (by decide),
    claim_C7_ParseImage.1 "012345678901" "cn-north-1" ".cn" "foo:v1" (by decide)
      (by decide) (by decide) (by decide) (by decide) (by decide) (by decide)
      (Or.inr ⟨"cn", rfl, by decide⟩) (by decide),
    claim_C7_ParseImage.2.1 "gcr.io" "foo/bar:baz" (by decide) (by decide)
      (by decide)⟩

/-- Claim C8: the AWS exchange base64-decodes the authorizationToken of the
first authorizationData element and splits it at the first colon into
username and password; the token c29tZS1rZXk6c29tZS1zZWNyZXQ= yields
(some-key, some-secret); the decodable colon-free token c29tZS10b2tlbg==
fails with an invalidToken error; an empty (or absent, decoding to empty)
authorizationData list fails with an invalidResponse error; and the two
failures are distinct errors, neither of which is an empty credential. -/
theorem claim_C8_aws_token_decode :
    (∀ (c : aws.Client) (acct region : String) (resp : aws.EcrResponse)
      (d : aws.EcrAuthData) (rest : List aws.EcrAuthData)
      (tok decoded : String) (u p : List Char),
      resp.statusCode = 200 →
      resp.authorizationData = d :: rest →
      d.authorizationToken = some tok →
      aws.base64Decode tok = some decoded →
      splitFirst ':' decoded.data = some (u, p) →
      aws.Client.getLoginAuth c acct region resp = .ok ⟨⟨u⟩, ⟨p⟩⟩)
    ∧ aws.Client.getLoginAuth aws.NewClient "some-account-id" "us-east-1"
        ⟨200, "200 OK", [⟨some "c29tZS1rZXk6c29tZS1zZWNyZXQ="⟩]⟩ =
        .ok ⟨"some-key", "some-secret"⟩
    ∧ aws.Client.getLoginAuth aws.NewClient "some-account-id" "us-east-1"
        ⟨200, "200 OK", [⟨some "c29tZS10b2tlbg=="⟩]⟩ =
        .error (.invalidToken
          "invalid authorization token, expected username and password separated by a colon")
    ∧ aws.Client.getLoginAuth aws.NewClient "some-account-id" "us-east-1"
        ⟨200, "200 OK", []⟩ = .error (.invalidResponse "no authorization data")
    ∧ RegistryError.invalidToken
        "invalid authorization token, expected username and password separated by a colon" ≠
        RegistryError.invalidResponse "no authorization data" :=
  ⟨fun c acct region resp d rest tok decoded u p hsc hdata htok hb64 hsplit =>
      aws_getLoginAuth_decode c acct region resp d rest tok decoded u p
        hsc hdata htok hb64 hsplit,
    rfl, rfl, rfl, by decide⟩

/-- Witness for C8: the success case derived through the general decode
clause at the concrete response of TestGetLoginAuth. -/
theorem claim_C8_aws_token_decode_witness :
    aws.Client.getLoginAuth aws.NewClient "some-account-id" "us-east-1"
        ⟨200, "200 OK", [⟨some "c29tZS1rZXk6c29tZS1zZWNyZXQ="⟩]⟩ =
      .ok ⟨"some-key", "some-secret"⟩ :=
  claim_C8_aws_token_decode.1 aws.NewClient "some-account-id" "us-east-1"
    ⟨200, "200 OK", [⟨some "c29tZS1rZXk6c29tZS1zZWNyZXQ="⟩]⟩
    ⟨some "c29tZS1rZXk6c29tZS1zZWNyZXQ="⟩ [] "c29tZS1rZXk6c29tZS1zZWNyZXQ="
    "some-key:some-secret" "some-key".data "some-secret".data
    rfl rfl rfl rfl rfl

/-- Claim C9: for every image classified Generic, Manager.Login with empty
ProviderOptions performs no exchange (its result is independent of every
endpoint's behavior) and returns ok none — no authenticator and no error —
and this is the only case in which Login returns neither credentials nor an
error: ok none forces the Generic classification, whatever the manager's
clients and options. -/
theorem claim_C9_manager_generic (m : login.Manager) (image : String)
    (ref : Reference) (w : login.World) :
    (login.ImageRegistryProvider image ref = .Generic →
      login.Manager.Login m image ref login.emptyProviderOptions w = .ok none)
    ∧ (∀ (opts : login.ProviderOptions) (w' : login.World),
      login.ImageRegistryProvider image ref = .Generic →
      login.Manager.Login m image ref opts w =
        login.Manager.Login m image ref opts w')
    ∧ (∀ opts : login.ProviderOptions,
      login.Manager.Login m image ref opts w = .ok none →
      login.ImageRegistryProvider image ref = .Generic) :=
  ⟨fun hg => manager_Login_generic m image ref login.emptyProviderOptions w hg,
    fun opts w' hg => (manager_Login_generic m image ref opts w hg).trans
      (manager_Login_generic m image ref opts w' hg).symm,
    fun opts h => manager_generic_cases m image ref opts w h⟩

/-- Witness for C9 at TestLogin's generic case: foo/bar:v1 with an empty
manager and empty options yields ok none. -/
theorem claim_C9_manager_generic_witness :
    login.Manager.Login login.NewManager "foo/bar:v1"
        ⟨"index.docker.io", "foo/bar"⟩ login.emptyProviderOptions
        ⟨⟨200, "200 OK", []⟩, ⟨200, "200 OK", none⟩, ⟨200, "200 OK", none⟩⟩ =
      .ok none :=
  (claim_C9_manager_generic login.NewManager "foo/bar:v1"
      ⟨"index.docker.io", "foo/bar"⟩
      ⟨⟨200, "200 OK", []⟩, ⟨200, "200 OK", none⟩, ⟨200, "200 OK", none⟩⟩).1
    (by decide)

end ClaimsRouting
